import Mathlib

/-!
Verification development for the youthalive event-ticketing backend.

The development shallowly embeds the webhook-payload normalization layer
(`parseWebhook`, `parseFormFields`, `parseProductDetails` from
src/services/jotform.service.ts) and the ticket lifecycle / check-in layer
(`webhookHandler` from the event controller, `checkIn` and `searchGuests`
from the check-in controller).

Modelling conventions:
  - JavaScript runtime values are the inductive `Value` (strings, numbers,
    booleans, null, undefined, arrays, objects).  Objects are association
    sequences (`VFields`); JS object-literal key uniqueness is maintained by
    the overwrite-on-set operation `setF`.
  - JS numbers are `JsNum`, an exact unnormalized integer fraction.  The
    binary floating-point rounding of JS doubles is not modelled; none of the
    verified properties depends on rounding.  NaN is modelled as `none` in
    `Option JsNum` where it can arise.
  - `JSON.parse` is an external library routine; it is passed in as a
    parameter `jp : String → Option Value` (`none` models a parse exception).
    Counterexample instantiations only map concrete JSON texts to their true
    parse results.
  - Exceptions inside try/catch blocks are modelled by routing the thrown
    case to the translation of the corresponding catch handler.
-/

mutual

inductive Value where
  | vStr (s : String)
  | vNum (n : JsNum)
  | vBool (b : Bool)
  | vNull
  | vUndefined
  | vArr (elems : VList)
  | vObj (fields : VFields)
deriving DecidableEq

inductive VList where
  | nil
  | cons (v : Value) (tl : VList)
deriving DecidableEq

inductive VFields where
  | nil
  | cons (k : String) (v : Value) (tl : VFields)
deriving DecidableEq

/-- Exact unnormalized fraction standing in for a JS number (den is never 0
for values this development constructs). -/
inductive JsNum where
  | mk (num : Int) (den : Nat)
deriving DecidableEq

end

def JsNum.num : JsNum → Int
  | .mk n _ => n

def JsNum.den : JsNum → Nat
  | .mk _ d => d

/-- Integer-valued JS number. -/
def JsNum.ofInt (n : Int) : JsNum := .mk n 1

/-- Product of two JS numbers (exact; float rounding unmodelled). -/
def JsNum.mul (a b : JsNum) : JsNum := .mk (a.num * b.num) (a.den * b.den)

/-- Convenience constructor for object values from a Lean list. -/
def VFields.ofList : List (String × Value) → VFields
  | [] => .nil
  | (k, v) :: tl => .cons k v (VFields.ofList tl)

/-- Convenience constructor for array values from a Lean list. -/
def VList.ofList : List Value → VList
  | [] => .nil
  | v :: tl => .cons v (VList.ofList tl)

/-- JS truthiness: empty string, 0, NaN-free zero, false, null and undefined
are falsy; objects and arrays are always truthy. -/
def truthy : Value → Bool
  | .vStr s => !(s == "")
  | .vNum n => !(n.num == 0)
  | .vBool b => b
  | .vNull => false
  | .vUndefined => false
  | .vArr _ => true
  | .vObj _ => true

/-- JS `a || b`: returns `a` when truthy, otherwise `b`. -/
def jsOr (a b : Value) : Value := if truthy a then a else b

/-- Model of `typeof v === 'object' && v !== null` (arrays and objects). -/
def objType : Value → Bool
  | .vArr _ => true
  | .vObj _ => true
  | _ => false

/-- Model of `typeof v === 'string'`. -/
def strType : Value → Bool
  | .vStr _ => true
  | _ => false

/-- Property read on an object association sequence (first binding wins;
sequences built by `setF` never hold duplicate keys). -/
def getF : VFields → String → Value
  | .nil, _ => .vUndefined
  | .cons k v tl, key => if k == key then v else getF tl key

/-- Property write: overwrite every binding of the key (at most one exists
under the construction invariant), else append. -/
def setF : VFields → String → Value → VFields
  | .nil, key, w => .cons key w .nil
  | .cons k v tl, key, w =>
    if k == key then .cons k w (setF tl key w) else .cons k v (setF tl key w)

def vlGet : VList → Nat → Value
  | .nil, _ => .vUndefined
  | .cons v _, 0 => v
  | .cons _ tl, n + 1 => vlGet tl n

def vlLen : VList → Nat
  | .nil => 0
  | .cons _ tl => vlLen tl + 1

/-- Canonical array-index decoding for JS property access: the key must be
the decimal numeral of the index (no leading zeros except "0"). -/
def decodeIndex (k : String) : Option Nat :=
  match k.data with
  | [] => none
  | c :: cs =>
    if (c :: cs).all Char.isDigit && (c ≠ '0' || cs = []) then
      some ((c :: cs).foldl (fun a d => a * 10 + (d.toNat - '0'.toNat)) 0)
    else none

/-- JS whitespace test (common fragment: space, tab, newline, CR, form feed). -/
def isSpaceJS (c : Char) : Bool :=
  c == ' ' || c == '\t' || c == '\n' || c == '\r' || c == '\x0c'

/-- JS `String.prototype.trim` over the character list (whitespace fragment
as `isSpaceJS`). -/
def jsTrim (s : String) : String :=
  ⟨((s.data.dropWhile isSpaceJS).reverse.dropWhile isSpaceJS).reverse⟩

def digitsToNat (cs : List Char) : Nat :=
  cs.foldl (fun a d => a * 10 + (d.toNat - '0'.toNat)) 0

/-- Decimal rendering of a JS number; exact for integers and terminating
decimals (the only numeric values this development constructs), with the
fractional expansion cut off at a fixed depth like the finite printing of
JS doubles. -/
def fracDigits : Nat → Nat → Nat → String
  | 0, _, _ => ""
  | _ + 1, 0, _ => ""
  | fuel + 1, n, d => toString (n * 10 / d) ++ fracDigits fuel (n * 10 % d) d

def fmtNum (r : JsNum) : String :=
  if r.den == 1 then toString r.num
  else
    let sign := if r.num < 0 then "-" else ""
    let m := r.num.natAbs
    let ip := m / r.den
    let rest := m % r.den
    if rest == 0 then sign ++ toString ip
    else sign ++ toString ip ++ "." ++ fracDigits 32 rest r.den

mutual

/-- JS `String(v)` coercion. -/
def jsToString : Value → String
  | .vStr s => s
  | .vNum n => fmtNum n
  | .vBool b => cond b "true" "false"
  | .vNull => "null"
  | .vUndefined => "undefined"
  | .vObj _ => "[object Object]"
  | .vArr xs => jsJoin xs

/-- JS `Array.prototype.join(',')` used by array-to-string coercion
(null/undefined elements render empty). -/
def jsJoin : VList → String
  | .nil => ""
  | .cons v tl =>
    (match v with
      | .vNull => ""
      | .vUndefined => ""
      | w => jsToString w) ++
    (match tl with
      | .nil => ""
      | _ => "," ++ jsJoin tl)

end

/-- JS property access `v[key]` for the shapes the source exercises:
objects by key, arrays and strings by canonical index, everything else
undefined. -/
def getProp (v : Value) (key : String) : Value :=
  match v with
  | .vObj fs => getF fs key
  | .vArr xs =>
    match decodeIndex key with
    | some i => vlGet xs i
    | none => .vUndefined
  | .vStr s =>
    match decodeIndex key with
    | some i =>
      match s.data.drop i with
      | [] => .vUndefined
      | c :: _ => .vStr ⟨[c]⟩
    | none => .vUndefined
  | _ => .vUndefined

/-- JS `parseInt(s, 10)`: skip whitespace, optional sign, then leading
decimal digits; `none` models NaN (no digits). -/
def parseIntJS (s : String) : Option Int :=
  let cs := s.data.dropWhile isSpaceJS
  let signAndRest : Bool × List Char :=
    match cs with
    | '-' :: rest => (true, rest)
    | '+' :: rest => (false, rest)
    | rest => (false, rest)
  let ds := signAndRest.2.takeWhile Char.isDigit
  if ds.isEmpty then none
  else some (if signAndRest.1 then -(digitsToNat ds : Int) else (digitsToNat ds : Int))

/-- JS `parseFloat(s)` fragment: skip whitespace, optional sign, longest
leading `digits[.digits]` run; exponents unmodelled; `none` models NaN. -/
def parseFloatJS (s : String) : Option JsNum :=
  let cs := s.data.dropWhile isSpaceJS
  let signAndRest : Bool × List Char :=
    match cs with
    | '-' :: rest => (true, rest)
    | '+' :: rest => (false, rest)
    | rest => (false, rest)
  let ip := signAndRest.2.takeWhile Char.isDigit
  let afterIp := signAndRest.2.drop ip.length
  let fp :=
    match afterIp with
    | '.' :: rest => rest.takeWhile Char.isDigit
    | _ => []
  if ip.isEmpty && fp.isEmpty then none
  else
    let den := 10 ^ fp.length
    let mag : Int := (digitsToNat ip * den + digitsToNat fp : Nat)
    some (.mk (if signAndRest.1 then -mag else mag) den)

/-- JS `x || 0` applied to a possibly-NaN number: NaN and zero collapse to
the literal 0. -/
def orZero (x : Option JsNum) : JsNum :=
  match x with
  | none => .mk 0 1
  | some r => if r.num == 0 then .mk 0 1 else r

/-- JS `Number(v)` coercion fragment (`none` = NaN): numbers pass through,
strings must be entirely numeric after trimming (empty string is 0),
booleans and null are 0/1/0, undefined and objects are NaN, arrays coerce
through their string join. -/
def numFromStr (s : String) : Option JsNum :=
  let t := jsTrim s
  if t == "" then some (.mk 0 1)
  else
    let cs := t.data
    let signAndRest : Bool × List Char :=
      match cs with
      | '-' :: rest => (true, rest)
      | '+' :: rest => (false, rest)
      | rest => (false, rest)
    let ip := signAndRest.2.takeWhile Char.isDigit
    let afterIp := signAndRest.2.drop ip.length
    let fpAndRest : List Char × List Char :=
      match afterIp with
      | '.' :: rest => (rest.takeWhile Char.isDigit, rest.drop (rest.takeWhile Char.isDigit).length)
      | rest => ([], rest)
    if (ip.isEmpty && fpAndRest.1.isEmpty) || !fpAndRest.2.isEmpty then none
    else
      let den := 10 ^ fpAndRest.1.length
      let mag : Int := (digitsToNat ip * den + digitsToNat fpAndRest.1 : Nat)
      some (.mk (if signAndRest.1 then -mag else mag) den)

def toNumber : Value → Option JsNum
  | .vNum n => some n
  | .vStr s => numFromStr s
  | .vBool b => some (.mk (cond b 1 0) 1)
  | .vNull => some (.mk 0 1)
  | .vUndefined => none
  | .vObj _ => none
  | .vArr xs => numFromStr (jsJoin xs)

/-- Attempted match of `Quantity:\s*(\d+)` anchored at the head of `cs`,
returning the captured digit run's value. -/
def quantAt (cs : List Char) : Option Nat :=
  if ("Quantity:".data).isPrefixOf cs then
    let rest := (cs.drop 9).dropWhile isSpaceJS
    let ds := rest.takeWhile Char.isDigit
    if ds.isEmpty then none else some (digitsToNat ds)
  else none

/-- Leftmost match of the regex `Quantity:\s*(\d+)` (as in
`str.match(/Quantity:\s*(\d+)/)`), yielding the captured quantity. -/
def regexQuantity (cs : List Char) : Option Nat :=
  match quantAt cs with
  | some n => some n
  | none =>
    match cs with
    | [] => none
    | _ :: tl => regexQuantity tl

/-- Attempted match of `Amount:\s*([\d.]+)` anchored at the head of `cs`,
returning the captured run of digits and dots. -/
def amountAt (cs : List Char) : Option String :=
  if ("Amount:".data).isPrefixOf cs then
    let rest := (cs.drop 7).dropWhile isSpaceJS
    let ds := rest.takeWhile (fun c => c.isDigit || c == '.')
    if ds.isEmpty then none else some ⟨ds⟩
  else none

/-- Leftmost match of the regex `Amount:\s*([\d.]+)`, yielding the capture. -/
def regexAmount (cs : List Char) : Option String :=
  match amountAt cs with
  | some s => some s
  | none =>
    match cs with
    | [] => none
    | _ :: tl => regexAmount tl

/-- Model of `Array.isArray`. -/
def isArr : Value → Bool
  | .vArr _ => true
  | _ => false

/-- String prefix test over the character list (JS `String.prototype.startsWith`). -/
def strStarts (s pat : String) : Bool := pat.data.isPrefixOf s.data

/-- JS `s.substring(n)` over the character list. -/
def strDropN (s : String) (n : Nat) : String := ⟨s.data.drop n⟩

/-- One conditional strip of the invoice-number cleaning chain: when the
value is a string starting with `pat`, drop its first `n` characters. -/
def cleanStep (pat : String) (n : Nat) (v : Value) : Value :=
  match v with
  | .vStr s => if strStarts s pat then .vStr (strDropN s n) else v
  | _ => v

/-- Invoice-number cleaning from `parseFormFields`: the three prefix strips
are applied sequentially, "# INV-" first, then "# ", then "INV-". -/
def cleanInvoice (v : Value) : Value :=
  cleanStep "INV-" 4 (cleanStep "# " 2 (cleanStep "# INV-" 6 v))

/-- Name flattening used by the name-alias branches: structured
`first`/`last` objects are joined and trimmed, anything else is
string-coerced. -/
def flattenName (v : Value) : String :=
  if objType v then
    jsTrim (jsToString (jsOr (getProp v "first") (.vStr "")) ++ " " ++
      jsToString (jsOr (getProp v "last") (.vStr "")))
  else jsToString v

/-- Email extraction block of `parseFormFields` (alias chain plus the
Stadium-24 re-check `if (!email && fields.q5_email)`). -/
def extractEmail (f : VFields) : Value :=
  let e :=
    if truthy (getF f "q4_email4") then getF f "q4_email4"
    else if truthy (getF f "q5_email") then getF f "q5_email"
    else if truthy (getF f "q4_email") then getF f "q4_email"
    else if truthy (getF f "email") then getF f "email"
    else .vStr ""
  if !truthy e && truthy (getF f "q5_email") then getF f "q5_email" else e

/-- Name extraction block of `parseFormFields`. -/
def extractName (f : VFields) : String :=
  if truthy (jsOr (getF f "q4_fullName") (getF f "q4_name")) then
    flattenName (jsOr (getF f "q4_fullName") (getF f "q4_name"))
  else if truthy (getF f "q3_ltstronggtnameltstronggt") then
    flattenName (getF f "q3_ltstronggtnameltstronggt")
  else if truthy (getF f "q3_name") then
    flattenName (getF f "q3_name")
  else if truthy (getF f "q3_name[first]") && truthy (getF f "q3_name[last]") then
    jsTrim (jsToString (getF f "q3_name[first]") ++ " " ++ jsToString (getF f "q3_name[last]"))
  else if truthy (getF f "name") then
    jsToString (getF f "name")
  else ""

/-- Phone extraction block of `parseFormFields`. -/
def extractPhone (f : VFields) : Value :=
  if truthy (jsOr (getF f "q7_phone") (getF f "q7_phoneNumber")) then
    jsOr (getF f "q7_phone") (getF f "q7_phoneNumber")
  else if truthy (getF f "q16_ltstronggtphoneNumberltstronggt") then
    getF f "q16_ltstronggtphoneNumberltstronggt"
  else if truthy (getF f "q11_phoneNumber") then
    (if objType (getF f "q11_phoneNumber") then
      jsOr (getProp (getF f "q11_phoneNumber") "full") (.vStr (jsToString (getF f "q11_phoneNumber")))
    else .vStr (jsToString (getF f "q11_phoneNumber")))
  else if truthy (getF f "q11_phoneNumber[full]") then
    getF f "q11_phoneNumber[full]"
  else if truthy (getF f "phone") then
    getF f "phone"
  else .vStr ""

/-- Church/youth-group extraction block of `parseFormFields`. -/
def extractChurch (f : VFields) : Value :=
  if truthy (jsOr (getF f "q10_church") (getF f "q10_youthGroup")) then
    jsOr (getF f "q10_church") (getF f "q10_youthGroup")
  else if truthy (getF f "q12_ltstronggtwhichYouth") then
    getF f "q12_ltstronggtwhichYouth"
  else if truthy (getF f "q9_youthGroup") then
    getF f "q9_youthGroup"
  else if truthy (getF f "q12_textbox") then
    getF f "q12_textbox"
  else if truthy (jsOr (getF f "church") (getF f "youthGroup")) then
    jsOr (getF f "church") (getF f "youthGroup")
  else .vStr ""

/-- Invoice-number extraction block of `parseFormFields`: alias chain, the
`INV-<Date.now()>` fallback, then the cleaning strips — the cleaning is
applied to whatever value the chain produced, the fallback included. -/
def extractInvoice (now : Nat) (f : VFields) : Value :=
  let raw :=
    if truthy (jsOr (getF f "q38_invoiceId") (getF f "38")) then
      jsOr (getF f "q38_invoiceId") (getF f "38")
    else if truthy (getF f "q11_invoiceId") then getF f "q11_invoiceId"
    else if truthy (getF f "q7_invoiceId") then getF f "q7_invoiceId"
    else if truthy (getF f "q11_autoincrement") then getF f "q11_autoincrement"
    else if truthy (getF f "invoiceId") then getF f "invoiceId"
    else .vStr ("INV-" ++ toString now)
  cleanInvoice raw

/-- Result record of `parseProductDetails`; `totalAmount = none` models NaN. -/
structure ProductResult where
  quantity : Int
  productDetails : String
  totalAmount : Option JsNum
deriving DecidableEq

def defaultProduct : ProductResult := ⟨1, "", some (.mk 0 1)⟩

/-- Translation of `parseProductDetails`.  The outer try/catch is modelled
by routing each throwing site to the value the catch handler would return
(the mutable locals as assigned so far); the inner try/catch around the
`paymentArray` parse likewise.  Throwing sites: `JSON.parse` of
`paymentArray` (inner), `.match` on a truthy non-string `product[0]`
(inner), and `JSON.parse` of `productField['1']` (outer). -/
def parseProductDetails (jp : String → Option Value) (productField : Value) : ProductResult :=
  if truthy productField && objType productField then
    let s1 : ProductResult :=
      if truthy (getProp productField "paymentArray") then
        match jp (jsToString (getProp productField "paymentArray")) with
        | none => defaultProduct
        | some paymentData =>
          let prodStep : Option (Int × String) :=
            if truthy (getProp paymentData "product") && isArr (getProp paymentData "product") then
              match jsOr (getProp (getProp paymentData "product") "0") (.vStr "") with
              | .vStr s =>
                let q : Int :=
                  match regexQuantity s.data with
                  | some n => if (n : Int) = 0 then 1 else (n : Int)
                  | none => 1
                some (q, s)
              | _ => none
            else some (1, "")
          match prodStep with
          | none => defaultProduct
          | some qd =>
            let t1 : Option JsNum :=
              if truthy (getProp paymentData "total") then
                some (orZero (parseFloatJS (jsToString (getProp paymentData "total"))))
              else some (.mk 0 1)
            ⟨qd.1, qd.2, t1⟩
      else defaultProduct
    if truthy (getProp productField "1") then
      match jp (jsToString (getProp productField "1")) with
      | none => s1
      | some productData =>
        let q2 : Int :=
          if truthy (getProp productData "quantity") then
            match parseIntJS (jsToString (getProp productData "quantity")) with
            | some n => if n = 0 then 1 else n
            | none => 1
          else s1.quantity
        let d2 : String :=
          if truthy (getProp productData "name") then
            jsToString (getProp productData "name") ++ " (Quantity: " ++ toString q2 ++ ")"
          else s1.productDetails
        let t2 : Option JsNum :=
          if truthy (getProp productData "price") then
            (toNumber (getProp productData "price")).map (fun p => p.mul (.ofInt q2))
          else s1.totalAmount
        ⟨q2, d2, t2⟩
    else s1
  else
    match productField with
    | .vStr s =>
      let q : Int :=
        match regexQuantity s.data with
        | some n => if (n : Int) = 0 then 1 else (n : Int)
        | none => 1
      let t : Option JsNum :=
        match regexAmount s.data with
        | some cap => some ((orZero (parseFloatJS cap)).mul (.ofInt q))
        | none => some (.mk 0 1)
      ⟨q, s, t⟩
    | _ => defaultProduct

/-- Canonical normalization output (the object literal `parseFormFields`
returns).  Fields assigned raw payload values in the source keep type
`Value`; fields built by string templates are `String`. -/
structure ParsedSubmission where
  formId : Value
  email : Value
  name : String
  invoiceNo : Value
  phone : Value
  church : Value
  quantity : Int
  productDetails : String
  totalAmount : Option JsNum
deriving DecidableEq

/-- Translation of `parseFormFields` (the field extractor), parameterized by
the `Date.now()` reading `now` used for the invoice fallback. -/
def parseFormFields (now : Nat) (jp : String → Option Value) (f : VFields) : ParsedSubmission :=
  let prod :=
    if truthy (jsOr (getF f "q3_products") (jsOr (getF f "q3_myProducts") (getF f "3"))) then
      parseProductDetails jp (jsOr (getF f "q3_products") (jsOr (getF f "q3_myProducts") (getF f "3")))
    else defaultProduct
  { formId := jsOr (getF f "formID") (jsOr (getF f "form_id") (jsOr (getF f "formId") (.vStr "")))
    email := extractEmail f
    name := extractName f
    invoiceNo := extractInvoice now f
    phone := extractPhone f
    church := extractChurch f
    quantity := prod.quantity
    productDetails := prod.productDetails
    totalAmount := prod.totalAmount }

def vlEntries : VList → Nat → VFields
  | .nil, _ => .nil
  | .cons v tl, i => .cons (toString i) v (vlEntries tl (i + 1))

def strEntries : List Char → Nat → VFields
  | [], _ => .nil
  | c :: tl, i => .cons (toString i) (.vStr ⟨[c]⟩) (strEntries tl (i + 1))

/-- Model of `Object.entries` on the parsed `rawRequest` value: objects give
their bindings, arrays and strings their indexed entries, primitives give
nothing, and null/undefined throw (`none`). -/
def entriesOf : Value → Option VFields
  | .vObj fs => some fs
  | .vArr xs => some (vlEntries xs 0)
  | .vStr s => some (strEntries s.data 0)
  | .vNull => none
  | .vUndefined => none
  | .vNum _ => some .nil
  | .vBool _ => some .nil

/-- Sequential copy `formFields[key] = value` over the entries. -/
def mergeEntries (init : VFields) : VFields → VFields
  | .nil => init
  | .cons k v tl => mergeEntries (setF init k v) tl

/-- Translation of `parseWebhook` (the submission normalizer): the outer
form identifier is read from `formID`/`form_id`/`formId`, injected into a
fresh mapping under both `formID` and `formId`, then the entries of the
parsed `rawRequest` are copied over it; a missing/falsy `rawRequest`, a
JSON parse failure, or an `Object.entries` throw falls through to parsing
the payload directly (legacy mode). -/
def parseWebhook (now : Nat) (jp : String → Option Value) (payload : VFields) : ParsedSubmission :=
  let formId := jsOr (getF payload "formID")
    (jsOr (getF payload "form_id") (jsOr (getF payload "formId") (.vStr "")))
  if truthy (getF payload "rawRequest") then
    match jp (jsToString (getF payload "rawRequest")) with
    | some rawData =>
      match entriesOf rawData with
      | some es =>
        parseFormFields now jp (mergeEntries (setF (setF .nil "formID" formId) "formId" formId) es)
      | none => parseFormFields now jp payload
    | none => parseFormFields now jp payload
  else parseFormFields now jp payload

/-- Persisted Event document (`formId` unique). -/
structure Event where
  id : String
  formId : String
  title : String
  startTime : Nat
  endTime : Nat
deriving DecidableEq

/-- Persisted User document (`email` unique). -/
structure User where
  id : String
  email : String
  passwordHash : String
deriving DecidableEq

/-- Persisted Ticket document.  The `checkedIn := false` / `checkInTime :=
none` creation defaults are modelled from the spec (sections 3 and 4.4) —
the mongoose schema modules are not among the provided sources. -/
structure Ticket where
  id : String
  invoiceNo : String
  userId : String
  eventId : String
  name : String
  email : String
  phone : String
  church : String
  youthMinistry : String
  quantity : Int
  productDetails : String
  totalAmount : Option JsNum
  checkedIn : Bool
  checkInTime : Option Nat
deriving DecidableEq

/-- Document store state: the three collections plus a fresh-id counter
standing in for ObjectId generation.  `findOne` is first-match search in
insertion order; inserts append. -/
structure DB where
  events : List Event
  users : List User
  tickets : List Ticket
  nextId : Nat
deriving DecidableEq

/-- Parsed-submission view consumed by the webhook controller, with field
values as the strings genuine form submissions produce (Mongoose schema
casting sits outside the modelled core).  `eventName`/`eventDate`/
`youthMinistry` are optional fields `parseFormFields` never sets; an absent
value is the empty string (falsy, like undefined). -/
structure SubmissionData where
  email : String
  formId : String
  invoiceNo : String
  name : String
  phone : String
  church : String
  youthMinistry : String
  eventName : String
  eventDate : String
  quantity : Int
  productDetails : String
  totalAmount : Option JsNum
deriving DecidableEq

/-- Placeholder for the bcrypt hash of the random temp password (external
library call; the modelled core never inspects the value). -/
def tempPasswordHash : String := "bcrypt-temp-password-hash"

/-- QR data-URL generator (spec section 6: pure external collaborator). -/
def generateQrCode (text : String) : String :=
  "data:image/png;base64,qr(" ++ text ++ ")"

/-- Abstract rendering of `Date.prototype.toLocaleDateString`. -/
def toLocaleDateString (t : Nat) : String := "date(" ++ toString t ++ ")"

/-- Abstract rendering of `Date.prototype.toLocaleString`. -/
def toLocaleString (t : Nat) : String := "datetime(" ++ toString t ++ ")"

/-- Find-or-create of the Event by `formId` (webhook handler step 1). -/
def resolveEvent (db : DB) (sub : SubmissionData) (nowMs : Nat) : DB × Event :=
  match db.events.find? (fun e => e.formId == sub.formId) with
  | some e => (db, e)
  | none =>
    let e : Event :=
      { id := "oid" ++ toString db.nextId
        formId := sub.formId
        title := if sub.eventName == "" then "Youth Alive Event" else sub.eventName
        startTime := nowMs
        endTime := nowMs + 7 * 24 * 60 * 60 * 1000 }
    ({ db with events := db.events ++ [e], nextId := db.nextId + 1 }, e)

/-- Find-or-create of the User by `email` (webhook handler step 2). -/
def resolveUser (db : DB) (sub : SubmissionData) : DB × User :=
  match db.users.find? (fun u => u.email == sub.email) with
  | some u => (db, u)
  | none =>
    let u : User :=
      { id := "oid" ++ toString db.nextId
        email := sub.email
        passwordHash := tempPasswordHash }
    ({ db with users := db.users ++ [u], nextId := db.nextId + 1 }, u)

inductive WebhookResp where
  | badRequest (email formId invoiceNo : String)
  | ok (ticketId : String)
deriving DecidableEq

/-- Payload handed to the external email sender (`sendTo` models the
source's `to` field, which is a reserved word here). -/
structure EmailMsg where
  sendTo : String
  name : String
  eventTitle : String
  eventDate : String
  invoiceNo : String
  qrDataUrl : String
deriving DecidableEq

/-- Translation of `webhookHandler` (event controller): validation gate,
find-or-create Event and User, the `invoiceNo` idempotency gate, and — on
the fresh-creation path only — QR generation and the confirmation email
(returned as the list of send invocations). -/
def webhookHandler (db : DB) (sub : SubmissionData) (nowMs : Nat) :
    DB × WebhookResp × List EmailMsg :=
  if sub.email == "" || sub.formId == "" || sub.invoiceNo == "" then
    (db, .badRequest sub.email sub.formId sub.invoiceNo, [])
  else
    let dbe := resolveEvent db sub nowMs
    let dbu := resolveUser dbe.1 sub
    match dbu.1.tickets.find? (fun t => t.invoiceNo == sub.invoiceNo) with
    | some t => (dbu.1, .ok t.id, [])
    | none =>
      let t : Ticket :=
        { id := "oid" ++ toString dbu.1.nextId
          invoiceNo := sub.invoiceNo
          userId := dbu.2.id
          eventId := dbe.2.id
          name := sub.name
          email := sub.email
          phone := sub.phone
          church := sub.church
          youthMinistry := sub.youthMinistry
          quantity := if sub.quantity = 0 then 1 else sub.quantity
          productDetails := sub.productDetails
          totalAmount := sub.totalAmount
          checkedIn := false
          checkInTime := none }
      ({ dbu.1 with tickets := dbu.1.tickets ++ [t], nextId := dbu.1.nextId + 1 },
        .ok t.id,
        [{ sendTo := sub.email
           name := sub.name
           eventTitle := dbe.2.title
           eventDate := if sub.eventDate == "" then toLocaleDateString dbe.2.startTime else sub.eventDate
           invoiceNo := sub.invoiceNo
           qrDataUrl := generateQrCode sub.invoiceNo }])

/-- Truthiness of an optional request string (absent and empty are falsy). -/
def strTruthy (o : Option String) : Bool := !(o.getD "" == "")

def isHexDigit (c : Char) : Bool :=
  c.isDigit || ('a' ≤ c && c ≤ 'f') || ('A' ≤ c && c ≤ 'F')

/-- Model of `mongoose.Types.ObjectId.isValid` on strings: a 24-character
hex string, or any 12-character string. -/
def isValidObjectId (s : String) : Bool :=
  s.data.length == 12 || (s.data.length == 24 && s.data.all isHexDigit)

/-- Scoping filter: when an `eventId` is supplied the ticket must belong to
that event. -/
def eventMatches (eventId : Option String) (t : Ticket) : Bool :=
  if strTruthy eventId then t.eventId == eventId.getD "" else true

/-- The `Ticket.findOne` query of the check-in handler: by `_id` when a
ticket id is supplied, else by `invoiceNo`, optionally event-scoped. -/
def checkInLookup (db : DB) (ticketId invoiceNo eventId : Option String) : Option Ticket :=
  if strTruthy ticketId then
    db.tickets.find? (fun t => t.id == ticketId.getD "" && eventMatches eventId t)
  else
    db.tickets.find? (fun t => t.invoiceNo == invoiceNo.getD "" && eventMatches eventId t)

inductive CheckInResult where
  | badRequest (message : String)
  | notFound (message : String)
  | alreadyCheckedIn (message : String)
  | success (message : String) (t : Ticket)
deriving DecidableEq

inductive ReadOutcome where
  | early (r : CheckInResult)
  | fetched (t : Ticket)
deriving DecidableEq

/-- Read phase of `checkIn` (check-in controller), up to and including the
`findOne`: identifier validation, ObjectId format validation, lookup.  No
store mutation happens in this phase. -/
def checkInRead (db : DB) (ticketId invoiceNo eventId : Option String) : ReadOutcome :=
  if !strTruthy ticketId && !strTruthy invoiceNo then
    .early (.badRequest "Ticket ID or invoice number is required")
  else if strTruthy ticketId && !isValidObjectId (ticketId.getD "") then
    .early (.badRequest "Invalid ticket ID format")
  else
    match checkInLookup db ticketId invoiceNo eventId with
    | none =>
      .early (.notFound (if strTruthy eventId then
        "Ticket not found for this event. This QR code may be for a different event."
        else "Ticket not found"))
    | some t => .fetched t

/-- Write phase of `checkIn`, operating on the snapshot the read phase
fetched: conflict report when the snapshot is already checked in, otherwise
mutate the snapshot and `save` it (replace-by-id in the collection). -/
def checkInFinish (db : DB) (t : Ticket) (nowT : Nat) : DB × CheckInResult :=
  if t.checkedIn then
    (db, .alreadyCheckedIn (t.name ++ " has already been checked in at " ++
      (match t.checkInTime with
        | some ts => toLocaleString ts
        | none => "undefined")))
  else
    let t2 := { t with checkedIn := true, checkInTime := some nowT }
    ({ db with tickets := db.tickets.map (fun x => if x.id == t2.id then t2 else x) },
      .success ("Welcome " ++ t.name ++ "! Check-in successful.") t2)

/-- Translation of `checkIn`: the find-then-save sequence, composed of its
read phase and its write phase (the source performs no atomic conditional
update at the store). -/
def checkIn (db : DB) (ticketId invoiceNo eventId : Option String) (nowT : Nat) :
    DB × CheckInResult :=
  match checkInRead db ticketId invoiceNo eventId with
  | .early r => (db, r)
  | .fetched t => checkInFinish db t nowT

/-- Case-insensitive character match for the regex fragment: `.` is the
wildcard, every other character matches literally. -/
def chMatch (p c : Char) : Bool := p == '.' || p.toLower == c.toLower

def matchHere : List Char → List Char → Bool
  | [], _ => true
  | _ :: _, [] => false
  | p :: ps, c :: cs => chMatch p c && matchHere ps cs

/-- Search of the pattern at every start position (JS `RegExp.test`). -/
def regexSearch (ps : List Char) : List Char → Bool
  | [] => matchHere ps []
  | c :: cs => matchHere ps (c :: cs) || regexSearch ps cs

/-- Model of `new RegExp(query, 'i').test(subject)` for the fragment of JS
regexes without metacharacters other than `.` — on metacharacter-free
queries this coincides with JS; the source compiles the raw query string,
not an escaped literal. -/
def jsRegexTestCI (pattern subject : String) : Bool :=
  regexSearch pattern.data subject.data

/-- Match criterion of `searchGuests`: event scope plus, when a query is
supplied, the case-insensitive regex against name or email. -/
def searchMatches (query : Option String) (t : Ticket) : Bool :=
  match query with
  | some q =>
    if q == "" then true else jsRegexTestCI q t.name || jsRegexTestCI q t.email
  | none => true

/-- Projection returned per ticket by `searchGuests`. -/
structure TicketView where
  id : String
  invoiceNo : String
  name : String
  email : String
  quantity : Int
  productDetails : String
  totalAmount : Option JsNum
  checkedIn : Bool
  checkInTime : Option Nat
deriving DecidableEq

def ticketView (t : Ticket) : TicketView :=
  { id := t.id, invoiceNo := t.invoiceNo, name := t.name, email := t.email,
    quantity := t.quantity, productDetails := t.productDetails,
    totalAmount := t.totalAmount, checkedIn := t.checkedIn, checkInTime := t.checkInTime }

inductive SearchResp where
  | badRequest (message : String)
  | ok (data : List TicketView)
deriving DecidableEq

/-- Lexicographic order on character lists by code point — the order the
store's ascending sort on a string field uses (UTF-8 byte order coincides
with code-point order). -/
def strLeL : List Char → List Char → Bool
  | [], _ => true
  | _ :: _, [] => false
  | a :: as, b :: bs => if a = b then strLeL as bs else decide (a < b)

/-- Name ordering used by the `sort({ name: 1 })` clause of `searchGuests`. -/
def ticketNameLe (a b : Ticket) : Prop := strLeL a.name.data b.name.data = true

instance : DecidableRel ticketNameLe :=
  fun a b => instDecidableEqBool (strLeL a.name.data b.name.data) true

/-- Translation of `searchGuests`: eventId validation, criteria build,
find + sort-by-name ascending + limit 50, projection (the store may return
any name-sorted order; a concrete sort realizes it). -/
def searchGuests (db : DB) (eventId query : Option String) : SearchResp :=
  if !strTruthy eventId then .badRequest "Event ID is required"
  else
    let matching := db.tickets.filter
      (fun t => t.eventId == eventId.getD "" && searchMatches query t)
    .ok (((List.insertionSort ticketNameLe matching).take 50).map ticketView)

def listContainsSub (needle : List Char) : List Char → Bool
  | [] => needle.isEmpty
  | c :: cs => needle.isPrefixOf (c :: cs) || listContainsSub needle cs

/-- Spec-following definition for comparison (spec section 4.4/8): the
claim's "name or email case-insensitively contains the query substring". -/
def specContainsCI (q s : String) : Bool :=
  listContainsSub (q.data.map Char.toLower) (s.data.map Char.toLower)
theorem cleanInvoice_invDefault (t : String) :
    cleanInvoice (.vStr ("INV-" ++ t)) = .vStr t := by
  have hd : ("INV-" ++ t).data = 'I' :: 'N' :: 'V' :: '-' :: t.data := by
    rw [String.data_append]; rfl
  have h1 : strStarts ("INV-" ++ t) "# INV-" = false := by
    simp [strStarts, hd, List.isPrefixOf]
  have h2 : strStarts ("INV-" ++ t) "# " = false := by
    simp [strStarts, hd, List.isPrefixOf]
  have h3 : strStarts ("INV-" ++ t) "INV-" = true := by
    simp [strStarts, hd, List.isPrefixOf]
  simp only [cleanInvoice, cleanStep, h1, h2, h3, Bool.false_eq_true, if_false, if_true]
  simp only [strDropN, hd, List.drop]
  rfl

def lastVal : VFields → String → Option Value
  | .nil, _ => none
  | .cons k v tl, key =>
    match lastVal tl key with
    | some w => some w
    | none => if k == key then some v else none

theorem getF_setF_same : ∀ (f : VFields) (k : String) (v : Value), getF (setF f k v) k = v
  | .nil, k, v => by simp [setF, getF]
  | .cons k0 v0 tl, k, v => by
    simp only [setF]
    by_cases h : (k0 == k) = true <;> simp [getF, h, getF_setF_same tl k v]

theorem getF_setF_ne : ∀ (f : VFields) (k' k : String) (v : Value),
    (k' == k) = false → getF (setF f k' v) k = getF f k
  | .nil, k', k, v, h => by simp [setF, getF, h]
  | .cons k0 v0 tl, k', k, v, h => by
    have hke : ¬ (k' = k) := by simpa using h
    by_cases h0 : (k0 == k') = true
    · have e : k0 = k' := by simpa using h0
      have hk : (k0 == k) = false := by rw [e]; exact h
      simp [setF, getF, e, hk, hke, getF_setF_ne tl k' k v h]
    · have e : ¬ (k0 = k') := by simpa using h0
      simp [setF, getF, e, hke, getF_setF_ne tl k' k v h]

theorem getF_mergeEntries : ∀ (es init : VFields) (k : String),
    getF (mergeEntries init es) k = (lastVal es k).getD (getF init k)
  | .nil, init, k => by simp [mergeEntries, lastVal]
  | .cons k0 v0 tl, init, k => by
    simp only [mergeEntries, lastVal]
    rw [getF_mergeEntries tl (setF init k0 v0) k]
    cases h : lastVal tl k with
    | some w => simp [h]
    | none =>
      by_cases hk : k0 = k
      · subst hk; simp [getF_setF_same]
      · have hb : (k0 == k) = false := by simp [hk]
        simp [hb, getF_setF_ne init k0 k v0 hb]
/-- Trivial JSON-parse stand-in for runs that never reach `JSON.parse` (or
where every parse fails). -/
def jpNone : String → Option Value := fun _ => none

/-- Claim C5 (amended): when the field mapping carries none of the invoice
alias keys, the fallback is built as "INV-" ++ Date.now(), but the
unconditional cleaning step then strips its own "INV-" prefix, so the
returned `invoiceNo` is the bare epoch-milliseconds numeral. -/
theorem C5_missing_invoice_placeholder (now : Nat) (jp : String → Option Value) (f : VFields)
    (h1 : getF f "q38_invoiceId" = .vUndefined) (h2 : getF f "38" = .vUndefined)
    (h3 : getF f "q11_invoiceId" = .vUndefined) (h4 : getF f "q7_invoiceId" = .vUndefined)
    (h5 : getF f "q11_autoincrement" = .vUndefined) (h6 : getF f "invoiceId" = .vUndefined) :
    (parseFormFields now jp f).invoiceNo = .vStr (toString now) := by
  have he : extractInvoice now f = .vStr (toString now) := by
    simp [extractInvoice, h1, h2, h3, h4, h5, h6, jsOr, truthy, cleanInvoice_invDefault]
  simp [parseFormFields, he]

/-- Witness for C5 at a concrete input. -/
theorem C5_missing_invoice_placeholder_witness :
    getF VFields.nil "invoiceId" = Value.vUndefined ∧
    (parseFormFields 55 jpNone VFields.nil).invoiceNo = .vStr "55" :=
  ⟨rfl, (C5_missing_invoice_placeholder 55 jpNone VFields.nil rfl rfl rfl rfl rfl rfl).trans
    (by decide)⟩

/-- Counterexample to C5 as stated: with no invoice alias present and parse
time 1000, the returned `invoiceNo` is "1000", not the claimed
"INV-1000" placeholder. -/
theorem C5_missing_invoice_counterexample :
    (parseFormFields 1000 jpNone VFields.nil).invoiceNo = .vStr "1000" ∧
    (parseFormFields 1000 jpNone VFields.nil).invoiceNo ≠ .vStr ("INV-" ++ toString 1000) := by
  decide

def invoiceOnly (s : String) : VFields := .cons "invoiceId" (.vStr s) .nil

/-- Claim C6 (amended): the three prefix strips are applied sequentially —
each of "# INV-", "# ", "INV-" at most once, in that order, so up to three
prefixes can be removed from one value.  On the claim's examples exactly
one strip fires, the outputs are bare digit strings, and stripping those
outputs again is a no-op (as is stripping any string carrying none of the
three prefixes). -/
theorem C6_invoice_strip_sequential :
    ((parseFormFields 0 jpNone (invoiceOnly "# INV-123")).invoiceNo = .vStr "123" ∧
      (parseFormFields 0 jpNone (invoiceOnly "INV-123")).invoiceNo = .vStr "123" ∧
      (parseFormFields 0 jpNone (invoiceOnly "123")).invoiceNo = .vStr "123") ∧
    cleanInvoice (.vStr "123") = .vStr "123" ∧
    (∀ s : String, strStarts s "# INV-" = false → strStarts s "# " = false →
      strStarts s "INV-" = false → cleanInvoice (.vStr s) = .vStr s) := by
  refine ⟨by decide, by decide, ?_⟩
  intro s hs1 hs2 hs3
  simp [cleanInvoice, cleanStep, hs1, hs2, hs3]

/-- Witness for the conditional conjunct of C6 at a concrete input. -/
theorem C6_invoice_strip_sequential_witness :
    strStarts "xyz" "# INV-" = false ∧ cleanInvoice (.vStr "xyz") = .vStr "xyz" :=
  ⟨by decide, C6_invoice_strip_sequential.2.2 "xyz" (by decide) (by decide) (by decide)⟩

/-- Counterexample to C6 as stated: "# INV-# 7" loses two prefixes ("# INV-"
then "# "), yielding "7", where an at-most-one-strip rule would yield "# 7". -/
theorem C6_invoice_strip_counterexample :
    (parseFormFields 0 jpNone (invoiceOnly "# INV-# 7")).invoiceNo = .vStr "7" ∧
    (parseFormFields 0 jpNone (invoiceOnly "# INV-# 7")).invoiceNo ≠ .vStr "# 7" := by
  decide

/-- A falsy `a || b` equals its right alternative. -/
theorem jsOr_eq_right (a b : Value) (h : truthy (jsOr a b) = false) : jsOr a b = b := by
  by_cases ha : truthy a = true
  · exfalso
    rw [jsOr, if_pos ha] at h
    rw [ha] at h
    cases h
  · rw [jsOr, if_neg ha]

/-- The outer form identifier `parseWebhook` reads before unwrapping. -/
def outerFormId (payload : VFields) : Value :=
  jsOr (getF payload "formID")
    (jsOr (getF payload "form_id") (jsOr (getF payload "formId") (.vStr "")))

/-- Claim C4 (amended): in nested mode the outer identifier is injected
under `formID` and `formId` first, and the embedded mapping's entries are
then copied over it, so the embedded mapping wins wherever it carries one
of those keys: the resulting `formId` re-probes `formID`/`form_id`/`formId`
on the merged mapping, where `formID` and `formId` hold the embedded
mapping's last binding when one exists (the outer value otherwise) and
`form_id` comes from the embedded mapping alone.  In particular a truthy
embedded `formID` always overrides the outer value, and the outer value is
used when the embedded mapping carries none of the three keys. -/
theorem C4_nested_formId_merge (now : Nat) (jp : String → Option Value) (payload : VFields)
    (raw : Value) (es : VFields)
    (hrr : truthy (getF payload "rawRequest") = true)
    (hjp : jp (jsToString (getF payload "rawRequest")) = some raw)
    (hes : entriesOf raw = some es) :
    (parseWebhook now jp payload).formId =
      jsOr ((lastVal es "formID").getD (outerFormId payload))
        (jsOr ((lastVal es "form_id").getD .vUndefined)
          (jsOr ((lastVal es "formId").getD (outerFormId payload)) (.vStr ""))) ∧
    (∀ v, lastVal es "formID" = some v → truthy v = true →
      (parseWebhook now jp payload).formId = v) ∧
    (lastVal es "formID" = none → lastVal es "form_id" = none → lastVal es "formId" = none →
      (parseWebhook now jp payload).formId = outerFormId payload) := by
  have hmain : (parseWebhook now jp payload).formId =
      jsOr ((lastVal es "formID").getD (outerFormId payload))
        (jsOr ((lastVal es "form_id").getD .vUndefined)
          (jsOr ((lastVal es "formId").getD (outerFormId payload)) (.vStr ""))) := by
    simp only [parseWebhook, hrr, if_true, hjp, hes]
    simp only [parseFormFields, getF_mergeEntries]
    have i1 : getF (setF (setF VFields.nil "formID" (outerFormId payload)) "formId"
        (outerFormId payload)) "formID" = outerFormId payload := by
      simp [setF, getF]
    have i2 : getF (setF (setF VFields.nil "formID" (outerFormId payload)) "formId"
        (outerFormId payload)) "form_id" = .vUndefined := by
      simp [setF, getF]
    have i3 : getF (setF (setF VFields.nil "formID" (outerFormId payload)) "formId"
        (outerFormId payload)) "formId" = outerFormId payload := by
      simp [setF, getF]
    rw [outerFormId] at i1 i2 i3
    rw [i1, i2, i3]
    rfl
  refine ⟨hmain, ?_, ?_⟩
  · intro v hv htv
    rw [hmain, hv]
    simp [jsOr, htv, Option.getD]
  · intro n1 n2 n3
    rw [hmain, n1, n2, n3]
    simp only [Option.getD]
    by_cases ho : truthy (outerFormId payload) = true
    · simp [jsOr, ho]
    · have ho' : truthy (outerFormId payload) = false := by simpa using ho
      have e1 : outerFormId payload =
          jsOr (getF payload "form_id") (jsOr (getF payload "formId") (.vStr "")) := by
        rw [outerFormId]
        exact jsOr_eq_right _ _ (by rw [outerFormId] at ho'; exact ho')
      have ht1 : truthy (jsOr (getF payload "form_id")
          (jsOr (getF payload "formId") (.vStr ""))) = false := by
        rw [← e1]; exact ho'
      have e2 := jsOr_eq_right (getF payload "form_id") _ ht1
      have ht2 : truthy (jsOr (getF payload "formId") (.vStr "")) = false := by
        rw [← e2]; exact ht1
      have e3 := jsOr_eq_right (getF payload "formId") _ ht2
      have eo : outerFormId payload = .vStr "" := by rw [e1, e2, e3]
      rw [eo]
      decide

def payloadC4 : VFields :=
  .cons "formID" (.vStr "outer")
    (.cons "rawRequest" (.vStr "\x7b\"formID\":\"inner\"\x7d") .nil)

def rawC4 : Value := .vObj (.cons "formID" (.vStr "inner") .nil)

/-- JSON-parse instantiation matching the real `JSON.parse` on the one
string this run feeds it. -/
def jpC4 : String → Option Value := fun s =>
  if s == "\x7b\"formID\":\"inner\"\x7d" then some rawC4 else none

/-- Witness for C4 at a concrete nested payload. -/
theorem C4_nested_formId_merge_witness :
    truthy (getF payloadC4 "rawRequest") = true ∧
    (parseWebhook 0 jpC4 payloadC4).formId = .vStr "inner" :=
  ⟨by decide,
    (C4_nested_formId_merge 0 jpC4 payloadC4 rawC4 (.cons "formID" (.vStr "inner") .nil)
      (by decide) (by decide) (by decide)).2.1 (.vStr "inner") (by decide) (by decide)⟩

/-- Counterexample to C4 as stated: the outer payload carries
formID "outer", the embedded rawRequest mapping carries formID "inner",
and the parsed submission's formId is the inner value, not the outer one. -/
theorem C4_nested_formId_counterexample :
    (parseWebhook 0 jpC4 payloadC4).formId = .vStr "inner" ∧
    (parseWebhook 0 jpC4 payloadC4).formId ≠ .vStr "outer" := by decide
/-- Claim C7 (amended): `parseProductDetails` is total by construction;
absent input and every non-object non-string shape yield the defaults, and
a JSON parse exception yields the defaults when no earlier branch had
parsed anything (the counterexample shows an exception after a successful
`paymentArray` parse keeps the parsed values instead). -/
theorem C7_parseProduct_defaults (jp : String → Option Value) :
    parseProductDetails jp .vUndefined = defaultProduct ∧
    (∀ v : Value, objType v = false → strType v = false →
      parseProductDetails jp v = defaultProduct) ∧
    (∀ s : String, jp s = none →
      parseProductDetails jp (.vObj (.cons "paymentArray" (.vStr s) .nil)) = defaultProduct ∧
      parseProductDetails jp (.vObj (.cons "1" (.vStr s) .nil)) = defaultProduct) := by
  refine ⟨by simp [parseProductDetails, truthy, objType], ?_, ?_⟩
  · intro v hobj hstr
    match v, hobj, hstr with
    | .vStr s, _, hstr => simp [strType] at hstr
    | .vNum n, _, _ => simp [parseProductDetails, objType, Bool.and_eq_true]
    | .vBool b, _, _ => simp [parseProductDetails, objType, Bool.and_eq_true]
    | .vNull, _, _ => simp [parseProductDetails, truthy, objType]
    | .vUndefined, _, _ => simp [parseProductDetails, truthy, objType]
    | .vArr xs, hobj, _ => simp [objType] at hobj
    | .vObj fs, hobj, _ => simp [objType] at hobj
  · intro s hjp
    constructor
    · by_cases h : s = ""
      · subst h
        simp [parseProductDetails, truthy, objType, getProp, getF]
      · have hb : (s == "") = false := by simpa using h
        simp [parseProductDetails, truthy, objType, getProp, getF, hb, jsToString, hjp]
    · by_cases h : s = ""
      · subst h
        simp [parseProductDetails, truthy, objType, getProp, getF]
      · have hb : (s == "") = false := by simpa using h
        simp [parseProductDetails, truthy, objType, getProp, getF, hb, jsToString, hjp]

/-- Witness for C7 at a concrete input. -/
theorem C7_parseProduct_defaults_witness :
    jpNone "x" = none ∧
    parseProductDetails jpNone (.vObj (.cons "paymentArray" (.vStr "x") .nil)) = defaultProduct :=
  ⟨rfl, ((C7_parseProduct_defaults jpNone).2.2 "x" rfl).1⟩

def paymentArrayJsonC7 : String :=
  "\x7b\"product\":[\"General Admission (Amount: 5.00 AUD, Quantity: 3)\"],\"total\":\"15\"\x7d"

/-- JSON-parse instantiation matching the real `JSON.parse` on the one
valid JSON text this run feeds it ("not json" throws). -/
def jpC7 : String → Option Value := fun s =>
  if s == paymentArrayJsonC7 then
    some (.vObj (.cons "product"
      (.vArr (.cons (.vStr "General Admission (Amount: 5.00 AUD, Quantity: 3)") .nil))
      (.cons "total" (.vStr "15") .nil)))
  else none

def productFieldC7 : Value :=
  .vObj (.cons "paymentArray" (.vStr paymentArrayJsonC7) (.cons "1" (.vStr "not json") .nil))

/-- Counterexample to C7 as stated: a field whose `paymentArray` parses
(quantity 3, total 15) but whose `'1'` entry is malformed JSON hits the
outer catch, and the function returns the already-parsed values, not the
claimed defaults. -/
theorem C7_parseProduct_counterexample :
    parseProductDetails jpC7 productFieldC7 =
      ⟨3, "General Admission (Amount: 5.00 AUD, Quantity: 3)", some (.mk 15 1)⟩ ∧
    parseProductDetails jpC7 productFieldC7 ≠ defaultProduct := by decide
def only (k : String) (v : Value) : VFields := .cons k v .nil

/-- JS `x || ''` on a string value is the value itself. -/
theorem jsOr_vStr_empty (t : String) : jsOr (.vStr t) (.vStr "") = .vStr t := by
  by_cases h : t = ""
  · subst h; simp [jsOr, truthy]
  · have hb : (t == "") = false := by simpa using h
    simp [jsOr, truthy, hb]

/-- Rewriting form of `jsOr_vStr_empty` after truthiness unfolding. -/
theorem ite_vStr_self (t : String) :
    (if t = "" then Value.vStr "" else Value.vStr t) = .vStr t := by
  by_cases h : t = ""
  · subst h; simp
  · simp [h]

/-- Claim C8 (amended): for a non-empty plain string under any single alias
key of a field, extraction returns the same canonical output whichever
alias carried it; structured values are flattened only by the shape-aware
alias branches — `first`/`last` name objects are joined and trimmed under
the four name aliases with shape detection, and a phone `full` object is
unwrapped under `q11_phoneNumber` — while the remaining aliases pass
values through as-is (the counterexample shows `q7_phone` and
`q11_phoneNumber` disagree on a structured value). -/
theorem C8_alias_equivalence (s first last : String) (hs : s ≠ "") :
    ((parseFormFields 0 jpNone (only "q4_email4" (.vStr s))).email = .vStr s ∧
     (parseFormFields 0 jpNone (only "q5_email" (.vStr s))).email = .vStr s ∧
     (parseFormFields 0 jpNone (only "q4_email" (.vStr s))).email = .vStr s ∧
     (parseFormFields 0 jpNone (only "email" (.vStr s))).email = .vStr s) ∧
    ((parseFormFields 0 jpNone (only "q4_fullName" (.vStr s))).name = s ∧
     (parseFormFields 0 jpNone (only "q4_name" (.vStr s))).name = s ∧
     (parseFormFields 0 jpNone (only "q3_ltstronggtnameltstronggt" (.vStr s))).name = s ∧
     (parseFormFields 0 jpNone (only "q3_name" (.vStr s))).name = s ∧
     (parseFormFields 0 jpNone (only "name" (.vStr s))).name = s) ∧
    ((parseFormFields 0 jpNone
        (only "q4_fullName" (.vObj (.cons "first" (.vStr first) (.cons "last" (.vStr last) .nil))))).name =
       jsTrim (first ++ " " ++ last) ∧
     (parseFormFields 0 jpNone
        (only "q4_name" (.vObj (.cons "first" (.vStr first) (.cons "last" (.vStr last) .nil))))).name =
       jsTrim (first ++ " " ++ last) ∧
     (parseFormFields 0 jpNone
        (only "q3_ltstronggtnameltstronggt" (.vObj (.cons "first" (.vStr first) (.cons "last" (.vStr last) .nil))))).name =
       jsTrim (first ++ " " ++ last) ∧
     (parseFormFields 0 jpNone
        (only "q3_name" (.vObj (.cons "first" (.vStr first) (.cons "last" (.vStr last) .nil))))).name =
       jsTrim (first ++ " " ++ last)) ∧
    ((parseFormFields 0 jpNone (only "q7_phone" (.vStr s))).phone = .vStr s ∧
     (parseFormFields 0 jpNone (only "q7_phoneNumber" (.vStr s))).phone = .vStr s ∧
     (parseFormFields 0 jpNone (only "q16_ltstronggtphoneNumberltstronggt" (.vStr s))).phone = .vStr s ∧
     (parseFormFields 0 jpNone (only "q11_phoneNumber" (.vStr s))).phone = .vStr s ∧
     (parseFormFields 0 jpNone (only "q11_phoneNumber[full]" (.vStr s))).phone = .vStr s ∧
     (parseFormFields 0 jpNone (only "phone" (.vStr s))).phone = .vStr s) ∧
    ((parseFormFields 0 jpNone
        (only "q11_phoneNumber" (.vObj (.cons "full" (.vStr s) .nil)))).phone = .vStr s) ∧
    ((parseFormFields 0 jpNone (only "q10_church" (.vStr s))).church = .vStr s ∧
     (parseFormFields 0 jpNone (only "q10_youthGroup" (.vStr s))).church = .vStr s ∧
     (parseFormFields 0 jpNone (only "q12_ltstronggtwhichYouth" (.vStr s))).church = .vStr s ∧
     (parseFormFields 0 jpNone (only "q9_youthGroup" (.vStr s))).church = .vStr s ∧
     (parseFormFields 0 jpNone (only "q12_textbox" (.vStr s))).church = .vStr s ∧
     (parseFormFields 0 jpNone (only "church" (.vStr s))).church = .vStr s ∧
     (parseFormFields 0 jpNone (only "youthGroup" (.vStr s))).church = .vStr s) ∧
    ((parseFormFields 0 jpNone (only "q38_invoiceId" (.vStr s))).invoiceNo = cleanInvoice (.vStr s) ∧
     (parseFormFields 0 jpNone (only "38" (.vStr s))).invoiceNo = cleanInvoice (.vStr s) ∧
     (parseFormFields 0 jpNone (only "q11_invoiceId" (.vStr s))).invoiceNo = cleanInvoice (.vStr s) ∧
     (parseFormFields 0 jpNone (only "q7_invoiceId" (.vStr s))).invoiceNo = cleanInvoice (.vStr s) ∧
     (parseFormFields 0 jpNone (only "q11_autoincrement" (.vStr s))).invoiceNo = cleanInvoice (.vStr s) ∧
     (parseFormFields 0 jpNone (only "invoiceId" (.vStr s))).invoiceNo = cleanInvoice (.vStr s)) := by
  have hb : (s == "") = false := by simpa using hs
  simp [parseFormFields, extractEmail, extractName, extractPhone, extractChurch,
    extractInvoice, flattenName, only, getF, getProp, jsOr, truthy, objType,
    jsToString, hb, jsOr_vStr_empty, ite_vStr_self]

/-- Witness for C8 at concrete inputs. -/
theorem C8_alias_equivalence_witness :
    ("jane@x.c" : String) ≠ "" ∧
    (parseFormFields 0 jpNone (only "q4_email4" (.vStr "jane@x.c"))).email = .vStr "jane@x.c" :=
  ⟨by decide, (C8_alias_equivalence "jane@x.c" "J" "D" (by decide)).1.1⟩

/-- Counterexample to C8 as stated: the same structured phone value yields
different canonical outputs under `q7_phone` (passed through as the raw
object) and `q11_phoneNumber` (flattened to its `full` string). -/
theorem C8_alias_counterexample :
    (parseFormFields 0 jpNone
      (only "q7_phone" (.vObj (.cons "full" (.vStr "0400123123") .nil)))).phone =
      .vObj (.cons "full" (.vStr "0400123123") .nil) ∧
    (parseFormFields 0 jpNone
      (only "q11_phoneNumber" (.vObj (.cons "full" (.vStr "0400123123") .nil)))).phone =
      .vStr "0400123123" ∧
    (Value.vObj (.cons "full" (.vStr "0400123123") .nil)) ≠ .vStr "0400123123" := by decide
/-- Claim C10: a present but malformed ticket id is rejected with the
distinct "Invalid ticket ID format" validation failure before any store
query — the result is the same for every store state, and it is not the
NotFound kind. -/
theorem C10_invalid_objectid (tid : String) (inv evid : Option String) (nowT : Nat)
    (h1 : tid ≠ "") (h2 : isValidObjectId tid = false) :
    (∀ db : DB, checkIn db (some tid) inv evid nowT =
      (db, .badRequest "Invalid ticket ID format")) ∧
    (∀ m : String, (CheckInResult.badRequest "Invalid ticket ID format") ≠ .notFound m) := by
  constructor
  · intro db
    have hb : (tid == "") = false := by simpa using h1
    simp [checkIn, checkInRead, strTruthy, hb, h2]
  · intro m
    simp

def dbEmpty : DB := ⟨[], [], [], 0⟩

/-- Witness for C10 at a concrete input. -/
theorem C10_invalid_objectid_witness :
    ("zz" : String) ≠ "" ∧ isValidObjectId "zz" = false ∧
    checkIn dbEmpty (some "zz") none none 5 =
      (dbEmpty, .badRequest "Invalid ticket ID format") :=
  ⟨by decide, by decide,
    (C10_invalid_objectid "zz" none none 5 (by decide) (by decide)).1 dbEmpty⟩

theorem resolveEvent_tickets (db : DB) (sub : SubmissionData) (nowMs : Nat) :
    (resolveEvent db sub nowMs).1.tickets = db.tickets := by
  unfold resolveEvent
  cases db.events.find? (fun e => e.formId == sub.formId) <;> rfl

theorem resolveUser_tickets (db : DB) (sub : SubmissionData) :
    (resolveUser db sub).1.tickets = db.tickets := by
  unfold resolveUser
  cases db.users.find? (fun u => u.email == sub.email) <;> rfl

/-- The webhook handler never removes or rewrites a stored ticket. -/
theorem webhookHandler_tickets_mono (db : DB) (sub : SubmissionData) (nowMs : Nat)
    (s : Ticket) (hs : s ∈ db.tickets) : s ∈ (webhookHandler db sub nowMs).1.tickets := by
  unfold webhookHandler
  by_cases hv : (sub.email == "" || sub.formId == "" || sub.invoiceNo == "") = true
  · simp only [hv, if_true]
    exact hs
  · simp only [Bool.not_eq_true] at hv
    simp only [hv, Bool.false_eq_true, if_false]
    have ht : (resolveUser (resolveEvent db sub nowMs).1 sub).1.tickets = db.tickets := by
      rw [resolveUser_tickets, resolveEvent_tickets]
    split
    · simpa [ht] using hs
    · simp only [ht]
      exact List.mem_append_left _ hs

/-- Claim C2: a check-in reaching an already-checked-in ticket reports the
AlreadyCheckedIn conflict whose message carries the holder's name and the
original check-in timestamp, leaves the store untouched, and — the
monotonicity conjuncts — no modelled operation ever turns a stored ticket's
checkedIn from true back to false. -/
theorem C2_already_checked_in_conflict (db : DB) (tid inv evid : Option String) (nowT : Nat)
    (t : Ticket) (hread : checkInRead db tid inv evid = .fetched t) (hchk : t.checkedIn = true) :
    checkIn db tid inv evid nowT =
      (db, .alreadyCheckedIn (t.name ++ " has already been checked in at " ++
        (match t.checkInTime with
          | some ts => toLocaleString ts
          | none => "undefined"))) ∧
    (∀ (db' : DB) (tid' inv' evid' : Option String) (now' : Nat) (s : Ticket),
      s ∈ db'.tickets → s.checkedIn = true →
      ∃ s2 ∈ (checkIn db' tid' inv' evid' now').1.tickets, s2.id = s.id ∧ s2.checkedIn = true) ∧
    (∀ (db' : DB) (sub : SubmissionData) (nowMs : Nat) (s : Ticket),
      s ∈ db'.tickets → s.checkedIn = true →
      ∃ s2 ∈ (webhookHandler db' sub nowMs).1.tickets, s2.id = s.id ∧ s2.checkedIn = true) := by
  refine ⟨?_, ?_, ?_⟩
  · simp [checkIn, hread, checkInFinish, hchk]
  · intro db' tid' inv' evid' now' s hs hchk'
    unfold checkIn
    cases hr : checkInRead db' tid' inv' evid' with
    | early r => exact ⟨s, hs, rfl, hchk'⟩
    | fetched t0 =>
      unfold checkInFinish
      by_cases h0 : t0.checkedIn = true
      · simp only [h0, if_true]
        exact ⟨s, hs, rfl, hchk'⟩
      · simp only [Bool.not_eq_true] at h0
        simp only [h0, Bool.false_eq_true, if_false]
        by_cases hid : (s.id == ({ t0 with checkedIn := true, checkInTime := some now' } : Ticket).id) = true
        · refine ⟨{ t0 with checkedIn := true, checkInTime := some now' },
            List.mem_map.2 ⟨s, hs, by simp [hid]⟩, ?_, rfl⟩
          have : s.id = t0.id := by simpa using hid
          simpa using this.symm
        · refine ⟨s, List.mem_map.2 ⟨s, hs, by simp [hid]⟩, rfl, hchk'⟩
  · intro db' sub nowMs s hs hchk'
    exact ⟨s, webhookHandler_tickets_mono db' sub nowMs s hs, rfl, hchk'⟩

def ticketC2 : Ticket :=
  ⟨"cccccccccccc", "999", "u1", "e1", "Bob", "b@x.c", "", "", "", 1, "", some (.mk 0 1),
    true, some 500⟩
def dbC2 : DB := ⟨[], [], [ticketC2], 0⟩

/-- Witness for C2 at a concrete input. -/
theorem C2_already_checked_in_conflict_witness :
    checkInRead dbC2 (some "cccccccccccc") none none = .fetched ticketC2 ∧
    checkIn dbC2 (some "cccccccccccc") none none 900 =
      (dbC2, .alreadyCheckedIn "Bob has already been checked in at datetime(500)") :=
  ⟨by decide,
    ((C2_already_checked_in_conflict dbC2 (some "cccccccccccc") none none 900 ticketC2
      (by decide) (by decide)).1).trans (by decide)⟩
/-- On a repeat delivery (a ticket with the invoice number already stored),
the webhook handler returns the existing ticket's id with no email sent and
no ticket-collection change. -/
theorem webhookHandler_existing (db : DB) (sub : SubmissionData) (nowMs : Nat) (t : Ticket)
    (hv : (sub.email == "" || sub.formId == "" || sub.invoiceNo == "") = false)
    (hf : db.tickets.find? (fun x => x.invoiceNo == sub.invoiceNo) = some t) :
    webhookHandler db sub nowMs =
      ((resolveUser (resolveEvent db sub nowMs).1 sub).1, .ok t.id, []) := by
  unfold webhookHandler
  simp only [hv, Bool.false_eq_true, if_false]
  have ht : (resolveUser (resolveEvent db sub nowMs).1 sub).1.tickets = db.tickets := by
    rw [resolveUser_tickets, resolveEvent_tickets]
  rw [ht, hf]

/-- The ticket record the fresh-creation path of `webhookHandler` builds. -/
def freshTicket (db : DB) (sub : SubmissionData) (nowMs : Nat) : Ticket :=
  { id := "oid" ++ toString (resolveUser (resolveEvent db sub nowMs).1 sub).1.nextId,
    invoiceNo := sub.invoiceNo,
    userId := (resolveUser (resolveEvent db sub nowMs).1 sub).2.id,
    eventId := (resolveEvent db sub nowMs).2.id,
    name := sub.name, email := sub.email, phone := sub.phone, church := sub.church,
    youthMinistry := sub.youthMinistry,
    quantity := if sub.quantity = 0 then 1 else sub.quantity,
    productDetails := sub.productDetails, totalAmount := sub.totalAmount,
    checkedIn := false, checkInTime := none }

/-- On a first delivery the handler appends exactly one ticket carrying the
submission's invoice number and issues exactly one email send. -/
theorem webhookHandler_fresh (db : DB) (sub : SubmissionData) (nowMs : Nat)
    (hv : (sub.email == "" || sub.formId == "" || sub.invoiceNo == "") = false)
    (hf : db.tickets.find? (fun x => x.invoiceNo == sub.invoiceNo) = none) :
    ∃ tNew : Ticket, tNew.invoiceNo = sub.invoiceNo ∧
      (webhookHandler db sub nowMs).1.tickets = db.tickets ++ [tNew] ∧
      (webhookHandler db sub nowMs).2.2.length = 1 := by
  unfold webhookHandler
  simp only [hv, Bool.false_eq_true, if_false]
  have ht : (resolveUser (resolveEvent db sub nowMs).1 sub).1.tickets = db.tickets := by
    rw [resolveUser_tickets, resolveEvent_tickets]
  rw [ht, hf]
  exact ⟨freshTicket db sub nowMs, rfl, rfl, rfl⟩

/-- Claim C1: the webhook handler (`processSubmission`) is idempotent on
invoiceNo — a stored matching ticket short-circuits creation and the
QR/email side effects and is returned as-is, and two deliveries of the same
valid submission leave exactly one ticket with that invoice number and at
most one email-send invocation. -/
theorem C1_processSubmission_idempotent (db : DB) (sub : SubmissionData) (now1 now2 : Nat)
    (h1 : sub.email ≠ "") (h2 : sub.formId ≠ "") (h3 : sub.invoiceNo ≠ "") :
    (∀ t : Ticket, db.tickets.find? (fun x => x.invoiceNo == sub.invoiceNo) = some t →
      (webhookHandler db sub now1).1.tickets = db.tickets ∧
      (webhookHandler db sub now1).2.1 = .ok t.id ∧
      (webhookHandler db sub now1).2.2 = []) ∧
    (db.tickets.find? (fun x => x.invoiceNo == sub.invoiceNo) = none →
      ((webhookHandler (webhookHandler db sub now1).1 sub now2).1.tickets.countP
        (fun x => x.invoiceNo == sub.invoiceNo) = 1) ∧
      ((webhookHandler db sub now1).2.2.length +
        (webhookHandler (webhookHandler db sub now1).1 sub now2).2.2.length ≤ 1)) := by
  have hv : (sub.email == "" || sub.formId == "" || sub.invoiceNo == "") = false := by
    simp [h1, h2, h3]
  constructor
  · intro t hf
    rw [webhookHandler_existing db sub now1 t hv hf]
    refine ⟨?_, rfl, rfl⟩
    rw [resolveUser_tickets, resolveEvent_tickets]
  · intro hf
    obtain ⟨tNew, hinv, htk, hlen⟩ := webhookHandler_fresh db sub now1 hv hf
    have hp : (fun x : Ticket => x.invoiceNo == sub.invoiceNo) tNew = true := by
      simp [hinv]
    have hf2 : (webhookHandler db sub now1).1.tickets.find?
        (fun x => x.invoiceNo == sub.invoiceNo) = some tNew := by
      rw [htk, List.find?_append, hf]
      simp [List.find?, hp]
    rw [webhookHandler_existing (webhookHandler db sub now1).1 sub now2 tNew hv hf2]
    have htk2 : (resolveUser (resolveEvent (webhookHandler db sub now1).1 sub now2).1 sub).1.tickets
        = db.tickets ++ [tNew] := by
      rw [resolveUser_tickets, resolveEvent_tickets, htk]
    constructor
    · rw [htk2, List.countP_append]
      have hz : db.tickets.countP (fun x => x.invoiceNo == sub.invoiceNo) = 0 :=
        List.countP_eq_zero.2 (List.find?_eq_none.1 hf)
      rw [hz]
      simp [List.countP, List.countP.go, hp]
    · rw [hlen]
      simp

def subC1 : SubmissionData :=
  ⟨"jane@x.c", "f1", "777", "Jane", "", "", "", "", "", 2, "", some (.mk 0 1)⟩

/-- Witness for C1 at a concrete input: a fresh store, two deliveries. -/
theorem C1_processSubmission_idempotent_witness :
    subC1.email ≠ "" ∧
    (((webhookHandler (webhookHandler dbEmpty subC1 5).1 subC1 6).1.tickets.countP
        (fun x => x.invoiceNo == subC1.invoiceNo) = 1) ∧
      ((webhookHandler dbEmpty subC1 5).2.2.length +
        (webhookHandler (webhookHandler dbEmpty subC1 5).1 subC1 6).2.2.length ≤ 1)) :=
  ⟨by decide,
    (C1_processSubmission_idempotent dbEmpty subC1 5 6 (by decide) (by decide) (by decide)).2 rfl⟩
def ticketC3 : Ticket :=
  ⟨"aaaaaaaaaaaa", "777", "u1", "e1", "Jane", "jane@x.c", "", "", "", 1, "", some (.mk 0 1),
    false, none⟩
def dbC3 : DB := ⟨[], [], [ticketC3], 0⟩

/-- Claim C3 (code bug): `checkIn` is by definition the find-then-save
read-modify-write `checkInRead` followed by `checkInFinish` — no atomic
conditional update reaches the store — and under the interleaving read-A,
read-B, write-A, write-B of two concurrent check-ins of the same
not-yet-checked-in ticket, both sessions fetch the unchecked snapshot and
both report success with their own fresh `checkInTime`, where the claim
requires exactly one success and the other `AlreadyCheckedIn`. -/
theorem C3_checkIn_race_two_successes :
    (∀ (db : DB) (tid inv evid : Option String) (nowT : Nat),
      checkIn db tid inv evid nowT =
        match checkInRead db tid inv evid with
        | .early r => (db, r)
        | .fetched t => checkInFinish db t nowT) ∧
    checkInRead dbC3 (some "aaaaaaaaaaaa") none none = .fetched ticketC3 ∧
    ((checkInFinish dbC3 ticketC3 1000).2 =
      .success "Welcome Jane! Check-in successful."
        { ticketC3 with checkedIn := true, checkInTime := some 1000 }) ∧
    ((checkInFinish (checkInFinish dbC3 ticketC3 1000).1 ticketC3 2000).2 =
      .success "Welcome Jane! Check-in successful."
        { ticketC3 with checkedIn := true, checkInTime := some 2000 }) :=
  ⟨fun _ _ _ _ _ => rfl, by decide, by decide, by decide⟩

theorem strLeL_total : ∀ x y : List Char, strLeL x y = true ∨ strLeL y x = true
  | [], _ => Or.inl rfl
  | _ :: _, [] => Or.inr rfl
  | a :: as, b :: bs => by
    by_cases h : a = b
    · subst h
      rcases strLeL_total as bs with h1 | h1
      · left; simp [strLeL, h1]
      · right; simp [strLeL, h1]
    · rcases lt_or_gt_of_ne h with hlt | hlt
      · left; simp [strLeL, h, hlt]
      · right; simp [strLeL, Ne.symm h, hlt]

theorem strLeL_trans : ∀ x y z : List Char,
    strLeL x y = true → strLeL y z = true → strLeL x z = true
  | [], _, _, _, _ => rfl
  | _ :: _, [], _, h, _ => by simp [strLeL] at h
  | _ :: _, _ :: _, [], _, h => by simp [strLeL] at h
  | a :: as, b :: bs, c :: cs, h1, h2 => by
    by_cases hab : a = b
    · subst hab
      by_cases hbc : a = c
      · subst hbc
        simp only [strLeL, if_pos rfl] at h1 h2 ⊢
        exact strLeL_trans as bs cs h1 h2
      · simp only [strLeL, if_pos rfl] at h1
        simp [strLeL, hbc] at h2 ⊢
        exact h2
    · simp only [strLeL, if_neg hab, decide_eq_true_eq] at h1
      by_cases hbc : b = c
      · subst hbc
        simp [strLeL, hab]
        exact h1
      · simp only [strLeL, if_neg hbc, decide_eq_true_eq] at h2
        have hac : a < c := lt_trans h1 h2
        simp [strLeL, ne_of_lt hac]
        exact hac

instance : IsTotal Ticket ticketNameLe :=
  ⟨fun a b => strLeL_total a.name.data b.name.data⟩

instance : IsTrans Ticket ticketNameLe :=
  ⟨fun a b c h1 h2 => strLeL_trans a.name.data b.name.data c.name.data h1 h2⟩

/-- Claim C9 (amended): a missing/empty eventId is rejected with the
validation failure; otherwise the result lists at most 50 tickets, each a
stored ticket of the requested event matching the query criterion — which
is a case-insensitive REGEX test of the raw query against name or email,
not literal substring containment — ordered by name ascending. -/
theorem C9_searchGuests_scoped_sorted_capped (db : DB) (eventId query : Option String) :
    (strTruthy eventId = false → searchGuests db eventId query = .badRequest "Event ID is required") ∧
    (strTruthy eventId = true → ∃ l : List Ticket,
      searchGuests db eventId query = .ok (l.map ticketView) ∧
      l.length ≤ 50 ∧
      (∀ t ∈ l, t ∈ db.tickets ∧ t.eventId = eventId.getD "" ∧ searchMatches query t = true) ∧
      l.Pairwise ticketNameLe) := by
  constructor
  · intro h
    simp [searchGuests, h]
  · intro h
    refine ⟨(List.insertionSort ticketNameLe (db.tickets.filter
        (fun t => t.eventId == eventId.getD "" && searchMatches query t))).take 50,
      by simp [searchGuests, h], ?_, ?_, ?_⟩
    · rw [List.length_take]
      exact min_le_left _ _
    · intro t ht
      have h1 : t ∈ List.insertionSort ticketNameLe (db.tickets.filter
          (fun t => t.eventId == eventId.getD "" && searchMatches query t)) :=
        List.Sublist.mem ht (List.take_sublist _ _)
      have h2 := (List.perm_insertionSort ticketNameLe _).mem_iff.1 h1
      obtain ⟨hmem, hpred⟩ := List.mem_filter.1 h2
      rw [Bool.and_eq_true] at hpred
      exact ⟨hmem, by simpa using hpred.1, hpred.2⟩
    · exact List.Pairwise.sublist (List.take_sublist _ _)
        (List.sorted_insertionSort ticketNameLe _)

def ticketC9 : Ticket :=
  ⟨"bbbbbbbbbbbb", "888", "u1", "e1", "Jane", "jane@x.c", "", "", "", 1, "", some (.mk 0 1),
    false, none⟩
def dbC9 : DB := ⟨[], [], [ticketC9], 0⟩

/-- Witness for C9 at a concrete input (missing eventId branch). -/
theorem C9_searchGuests_scoped_sorted_capped_witness :
    strTruthy (none : Option String) = false ∧
    searchGuests dbC9 none (some "jane") = .badRequest "Event ID is required" :=
  ⟨by decide, (C9_searchGuests_scoped_sorted_capped dbC9 none (some "jane")).1 (by decide)⟩

/-- Counterexample to C9 as stated: the query is compiled as a regex, so
the query "j.ne" returns the ticket named "Jane" although neither its name
nor its email contains the substring "j.ne". -/
theorem C9_searchGuests_counterexample :
    searchGuests dbC9 (some "e1") (some "j.ne") = .ok [ticketView ticketC9] ∧
    specContainsCI "j.ne" "Jane" = false ∧
    specContainsCI "j.ne" "jane@x.c" = false := by decide
